import Mathlib

/-!
Shallow embedding of the client-side caching and list-synchronization layer of
the fe-thefunneleffect repository: the Redux entity slices (tracks, playlists,
contacts, pages, images, audios), the staleness decision used by the list
views, the response interceptor and token-verification logic, and the
Cloudinary listing wrappers.  JavaScript numbers are modelled as Int (so that
counters may go negative), nullable values as Option, and each reducer as a
pure function on an explicit state record.
-/

/-- Mirrors the JavaScript expression `x || null` applied to an optional
string: the empty string is falsy, so it collapses to null. -/
def jsOrNullStr (x : Option String) : Option String :=
  match x with
  | none => none
  | some s => if s = "" then none else some s

/-- Mirrors the JavaScript expression `x || fallback` applied to an optional
string (used for `action.error.message || 'Failed to ...'`): null, undefined
and the empty string all yield the fallback. -/
def jsOrElseStr (x : Option String) (fallback : String) : String :=
  match x with
  | none => fallback
  | some s => if s = "" then fallback else s

/-- Mirrors the JavaScript expression `s || ''` on a string, which is the
identity in effect (an empty string maps to the empty string). -/
def jsOrEmptyStr (s : String) : String :=
  if s = "" then "" else s

/-- Client-owned pagination record shared by the page-paginated slices
(`page`, `pageSize`, `totalItems`, `totalPages` in every slice state). -/
structure Pagination where
  page : Int
  pageSize : Int
  totalItems : Int
  totalPages : Int
deriving Repr, DecidableEq

/-- Pagination block of the backend list responses, with the server-side key
names (`currentPage`, `totalPages`, `totalItems`, `itemsPerPage`). -/
structure ServerPagination where
  currentPage : Int
  totalPages : Int
  totalItems : Int
  itemsPerPage : Int
deriving Repr, DecidableEq

/-- A track item.  The reducers only ever inspect `_id`; the remaining
metadata fields of the `Track` interface are summarized by `title`. -/
structure Track where
  _id : String
  title : Option String
deriving Repr, DecidableEq

/-- Argument object of the `fetchTracks` thunk (`tracks/fetchTracks`); the
dispatch site in the track list view always supplies every field. -/
structure TrackFetchParams where
  page : Int
  pageSize : Int
  search : String
  category : String
  author : String
deriving Repr, DecidableEq

/-- Payload returned by the `fetchTracks` thunk on success. -/
structure TracksFetchPayload where
  tracks : List Track
  pagination : Pagination
  searchTerm : String
  categoryFilter : String
  authorFilter : String
deriving Repr, DecidableEq

/-- Body of the backend response consumed by `fetchTracks`. -/
structure TracksServerResponse where
  tracks : List Track
  pagination : ServerPagination
deriving Repr, DecidableEq

/-- The `fetchTracks` thunk maps the server response to its payload: the
pagination record is rebuilt from the server keys (`page` from `currentPage`,
`pageSize` from `itemsPerPage`), and the filter echoes come from the request
arguments (tracksSlice lines 62-73). -/
def fetchTracksPayload (arg : TrackFetchParams) (resp : TracksServerResponse) :
    TracksFetchPayload :=
  { tracks := resp.tracks
  , pagination :=
      { page := resp.pagination.currentPage
      , pageSize := resp.pagination.itemsPerPage
      , totalItems := resp.pagination.totalItems
      , totalPages := resp.pagination.totalPages }
  , searchTerm := arg.search
  , categoryFilter := arg.category
  , authorFilter := arg.author }

/-- State of the tracks slice. -/
structure TracksState where
  items : List Track
  loading : Bool
  error : Option String
  pagination : Pagination
  searchTerm : String
  categoryFilter : String
  authorFilter : String
  lastFetched : Option Int
  lastFetchParams : Option TrackFetchParams
deriving Repr, DecidableEq

/-- Initial state of the tracks slice. -/
def tracksInitialState : TracksState :=
  { items := []
  , loading := false
  , error := none
  , pagination := { page := 1, pageSize := 10, totalItems := 0, totalPages := 0 }
  , searchTerm := ""
  , categoryFilter := ""
  , authorFilter := ""
  , lastFetched := none
  , lastFetchParams := none }

/-- Actions handled by the tracks slice.  Fulfilled fetch actions carry the
current clock value (`Date.now()`) and the thunk argument (`action.meta.arg`)
as explicit data. -/
inductive TracksAction where
  | setPagination (page pageSize : Int)
  | setSearchTerm (s : String)
  | setCategoryFilter (s : String)
  | setAuthorFilter (s : String)
  | clearError
  | fetchTracksPending
  | fetchTracksFulfilled (payload : TracksFetchPayload) (now : Int) (arg : TrackFetchParams)
  | fetchTracksRejected (errorMessage : Option String)
  | createTrackPending
  | createTrackFulfilled (track : Track)
  | createTrackRejected (errorMessage : Option String)
  | updateTrackPending
  | updateTrackFulfilled (track : Track)
  | updateTrackRejected (errorMessage : Option String)
  | deleteTrackPending
  | deleteTrackFulfilled (trackId : String)
  | deleteTrackRejected (errorMessage : Option String)
deriving Repr, DecidableEq

/-- Reducer of the tracks slice (tracksSlice, reducers and extraReducers). -/
def tracksReducer (state : TracksState) (action : TracksAction) : TracksState :=
  match action with
  | .setPagination page pageSize =>
      { state with pagination := { state.pagination with page := page, pageSize := pageSize } }
  | .setSearchTerm s => { state with searchTerm := s }
  | .setCategoryFilter s => { state with categoryFilter := s }
  | .setAuthorFilter s => { state with authorFilter := s }
  | .clearError => { state with error := none }
  | .fetchTracksPending => { state with loading := true, error := none }
  | .fetchTracksFulfilled payload now arg =>
      { state with
        loading := false
      , items := payload.tracks
      , pagination := payload.pagination
      , searchTerm := payload.searchTerm
      , categoryFilter := jsOrEmptyStr payload.categoryFilter
      , authorFilter := jsOrEmptyStr payload.authorFilter
      , lastFetched := some now
      , lastFetchParams := some arg }
  | .fetchTracksRejected msg =>
      { state with loading := false, error := some (jsOrElseStr msg "Failed to fetch tracks") }
  | .createTrackPending => { state with loading := true, error := none }
  | .createTrackFulfilled track =>
      { state with
        loading := false
      , items := track :: state.items
      , pagination := { state.pagination with totalItems := state.pagination.totalItems + 1 } }
  | .createTrackRejected msg =>
      { state with loading := false, error := some (jsOrElseStr msg "Failed to create track") }
  | .updateTrackPending => { state with loading := true, error := none }
  | .updateTrackFulfilled track =>
      match state.items.findIdx? (fun t => t._id == track._id) with
      | some i => { state with loading := false, items := state.items.set i track }
      | none => { state with loading := false }
  | .updateTrackRejected msg =>
      { state with loading := false, error := some (jsOrElseStr msg "Failed to update track") }
  | .deleteTrackPending => { state with loading := true, error := none }
  | .deleteTrackFulfilled trackId =>
      { state with
        loading := false
      , items := state.items.filter (fun t => t._id != trackId)
      , pagination := { state.pagination with totalItems := state.pagination.totalItems - 1 } }
  | .deleteTrackRejected msg =>
      { state with loading := false, error := some (jsOrElseStr msg "Failed to delete track") }

/-- Cache duration used by the track list fetch effect (2 minutes). -/
def trackCacheDurationMs : Int := 2 * 60 * 1000

/-- Field-by-field parameter comparison of the track list fetch effect
(`paramsChanged`): a missing snapshot counts as changed. -/
def tracksParamsChanged (c : TrackFetchParams) (l : Option TrackFetchParams) : Bool :=
  match l with
  | none => true
  | some lp =>
      c.page != lp.page || c.pageSize != lp.pageSize || c.search != lp.search ||
      c.category != lp.category || c.author != lp.author

/-- Staleness decision of the track list fetch effect:
`!lastFetched || Date.now() - lastFetched > CACHE_DURATION || paramsChanged`.
In JavaScript `!lastFetched` is also true for the timestamp 0, which the
embedding keeps. -/
def tracksShouldFetch (now : Int) (lastFetched : Option Int)
    (c : TrackFetchParams) (l : Option TrackFetchParams) : Bool :=
  match lastFetched with
  | none => true
  | some t => (t == 0) || (now - t > trackCacheDurationMs) || tracksParamsChanged c l

/-- Current query parameters assembled by the track list fetch effect from
the slice state. -/
def currentTrackParams (s : TracksState) : TrackFetchParams :=
  { page := s.pagination.page
  , pageSize := s.pagination.pageSize
  , search := s.searchTerm
  , category := s.categoryFilter
  , author := s.authorFilter }

/-- The track list fetch effect: dispatches `fetchTracks` with the current
parameters when `shouldFetch` holds, and dispatches nothing otherwise. -/
def trackListEffectDispatch (now : Int) (s : TracksState) : Option TrackFetchParams :=
  if tracksShouldFetch now s.lastFetched (currentTrackParams s) s.lastFetchParams
  then some (currentTrackParams s)
  else none

/-- Specification-side reading of parameter difference: the current
parameters differ from the last-fetch snapshot in some field (a missing
snapshot counts as a difference). -/
def TrackParamsDiffer (c : TrackFetchParams) (l : Option TrackFetchParams) : Prop :=
  match l with
  | none => True
  | some lp =>
      c.page ≠ lp.page ∨ c.pageSize ≠ lp.pageSize ∨ c.search ≠ lp.search ∨
      c.category ≠ lp.category ∨ c.author ≠ lp.author

/-- A playlist item; only `_id` is inspected by the reducers. -/
structure Playlist where
  _id : String
  title : Option String
deriving Repr, DecidableEq

/-- Argument object of the `fetchPlaylists` thunk; `isPublic` is genuinely
optional (`boolean | undefined`) at the dispatch site. -/
structure PlaylistFetchParams where
  page : Int
  pageSize : Int
  search : String
  createdBy : String
  isPublic : Option Bool
  tag : String
deriving Repr, DecidableEq

/-- Payload returned by the `fetchPlaylists` thunk on success. -/
structure PlaylistsFetchPayload where
  playlists : List Playlist
  pagination : Pagination
  searchTerm : String
  createdByFilter : String
  isPublicFilter : String
  tagFilter : String
deriving Repr, DecidableEq

/-- Body of the backend response consumed by `fetchPlaylists`. -/
structure PlaylistsServerResponse where
  playlists : List Playlist
  pagination : ServerPagination
deriving Repr, DecidableEq

/-- Mirrors `isPublic !== undefined ? isPublic.toString() : ''`. -/
def isPublicToFilterString (isPublic : Option Bool) : String :=
  match isPublic with
  | none => ""
  | some b => if b then "true" else "false"

/-- The `fetchPlaylists` thunk maps the server response to its payload; as in
the tracks slice, the pagination record is rebuilt from the server keys
(playlistsSlice lines 67-79). -/
def fetchPlaylistsPayload (arg : PlaylistFetchParams) (resp : PlaylistsServerResponse) :
    PlaylistsFetchPayload :=
  { playlists := resp.playlists
  , pagination :=
      { page := resp.pagination.currentPage
      , pageSize := resp.pagination.itemsPerPage
      , totalItems := resp.pagination.totalItems
      , totalPages := resp.pagination.totalPages }
  , searchTerm := arg.search
  , createdByFilter := arg.createdBy
  , isPublicFilter := isPublicToFilterString arg.isPublic
  , tagFilter := arg.tag }

/-- State of the playlists slice. -/
structure PlaylistsState where
  items : List Playlist
  loading : Bool
  error : Option String
  pagination : Pagination
  searchTerm : String
  createdByFilter : String
  isPublicFilter : String
  tagFilter : String
  lastFetched : Option Int
  lastFetchParams : Option PlaylistFetchParams
deriving Repr, DecidableEq

/-- Initial state of the playlists slice. -/
def playlistsInitialState : PlaylistsState :=
  { items := []
  , loading := false
  , error := none
  , pagination := { page := 1, pageSize := 10, totalItems := 0, totalPages := 0 }
  , searchTerm := ""
  , createdByFilter := ""
  , isPublicFilter := ""
  , tagFilter := ""
  , lastFetched := none
  , lastFetchParams := none }

/-- Actions handled by the playlists slice. -/
inductive PlaylistsAction where
  | setPagination (page pageSize : Int)
  | setSearchTerm (s : String)
  | setCreatedByFilter (s : String)
  | setIsPublicFilter (s : String)
  | setTagFilter (s : String)
  | clearError
  | fetchPlaylistsPending
  | fetchPlaylistsFulfilled (payload : PlaylistsFetchPayload) (now : Int) (arg : PlaylistFetchParams)
  | fetchPlaylistsRejected (errorMessage : Option String)
  | createPlaylistPending
  | createPlaylistFulfilled (playlist : Playlist)
  | createPlaylistRejected (errorMessage : Option String)
  | updatePlaylistPending
  | updatePlaylistFulfilled (playlist : Playlist)
  | updatePlaylistRejected (errorMessage : Option String)
  | deletePlaylistPending
  | deletePlaylistFulfilled (playlistId : String)
  | deletePlaylistRejected (errorMessage : Option String)
  | addTracksToPlaylistPending
  | addTracksToPlaylistFulfilled (playlist : Playlist)
  | addTracksToPlaylistRejected (errorMessage : Option String)
  | removeTrackFromPlaylistPending
  | removeTrackFromPlaylistFulfilled (playlist : Playlist)
  | removeTrackFromPlaylistRejected (errorMessage : Option String)
deriving Repr, DecidableEq

/-- Replaces the cached playlist with matching id in place, a no-op when the
id is absent (shared by the update, addTracks and removeTrack reducers). -/
def replacePlaylistById (items : List Playlist) (p : Playlist) : List Playlist :=
  match items.findIdx? (fun q => q._id == p._id) with
  | some i => items.set i p
  | none => items

/-- Reducer of the playlists slice. -/
def playlistsReducer (state : PlaylistsState) (action : PlaylistsAction) : PlaylistsState :=
  match action with
  | .setPagination page pageSize =>
      { state with pagination := { state.pagination with page := page, pageSize := pageSize } }
  | .setSearchTerm s => { state with searchTerm := s }
  | .setCreatedByFilter s => { state with createdByFilter := s }
  | .setIsPublicFilter s => { state with isPublicFilter := s }
  | .setTagFilter s => { state with tagFilter := s }
  | .clearError => { state with error := none }
  | .fetchPlaylistsPending => { state with loading := true, error := none }
  | .fetchPlaylistsFulfilled payload now arg =>
      { state with
        loading := false
      , items := payload.playlists
      , pagination := payload.pagination
      , searchTerm := payload.searchTerm
      , createdByFilter := jsOrEmptyStr payload.createdByFilter
      , isPublicFilter := jsOrEmptyStr payload.isPublicFilter
      , tagFilter := jsOrEmptyStr payload.tagFilter
      , lastFetched := some now
      , lastFetchParams := some arg }
  | .fetchPlaylistsRejected msg =>
      { state with loading := false, error := some (jsOrElseStr msg "Failed to fetch playlists") }
  | .createPlaylistPending => { state with loading := true, error := none }
  | .createPlaylistFulfilled playlist =>
      { state with
        loading := false
      , items := playlist :: state.items
      , pagination := { state.pagination with totalItems := state.pagination.totalItems + 1 } }
  | .createPlaylistRejected msg =>
      { state with loading := false, error := some (jsOrElseStr msg "Failed to create playlist") }
  | .updatePlaylistPending => { state with loading := true, error := none }
  | .updatePlaylistFulfilled playlist =>
      { state with loading := false, items := replacePlaylistById state.items playlist }
  | .updatePlaylistRejected msg =>
      { state with loading := false, error := some (jsOrElseStr msg "Failed to update playlist") }
  | .deletePlaylistPending => { state with loading := true, error := none }
  | .deletePlaylistFulfilled playlistId =>
      { state with
        loading := false
      , items := state.items.filter (fun p => p._id != playlistId)
      , pagination := { state.pagination with totalItems := state.pagination.totalItems - 1 } }
  | .deletePlaylistRejected msg =>
      { state with loading := false, error := some (jsOrElseStr msg "Failed to delete playlist") }
  | .addTracksToPlaylistPending => { state with loading := true, error := none }
  | .addTracksToPlaylistFulfilled playlist =>
      { state with loading := false, items := replacePlaylistById state.items playlist }
  | .addTracksToPlaylistRejected msg =>
      { state with loading := false, error := some (jsOrElseStr msg "Failed to add tracks to playlist") }
  | .removeTrackFromPlaylistPending => { state with loading := true, error := none }
  | .removeTrackFromPlaylistFulfilled playlist =>
      { state with loading := false, items := replacePlaylistById state.items playlist }
  | .removeTrackFromPlaylistRejected msg =>
      { state with loading := false, error := some (jsOrElseStr msg "Failed to remove track from playlist") }

/-- Cache duration used by the playlist list fetch effect (2 minutes). -/
def playlistCacheDurationMs : Int := 2 * 60 * 1000

/-- Field-by-field parameter comparison of the playlist list fetch effect. -/
def playlistsParamsChanged (c : PlaylistFetchParams) (l : Option PlaylistFetchParams) : Bool :=
  match l with
  | none => true
  | some lp =>
      c.page != lp.page || c.pageSize != lp.pageSize || c.search != lp.search ||
      c.createdBy != lp.createdBy || c.isPublic != lp.isPublic || c.tag != lp.tag

/-- Staleness decision of the playlist list fetch effect. -/
def playlistsShouldFetch (now : Int) (lastFetched : Option Int)
    (c : PlaylistFetchParams) (l : Option PlaylistFetchParams) : Bool :=
  match lastFetched with
  | none => true
  | some t => (t == 0) || (now - t > playlistCacheDurationMs) || playlistsParamsChanged c l

/-- Current query parameters assembled by the playlist list fetch effect,
including the translation of the string-valued public filter to an optional
boolean (`isPublicFilter ? isPublicFilter === 'true' : undefined`). -/
def currentPlaylistParams (s : PlaylistsState) : PlaylistFetchParams :=
  { page := s.pagination.page
  , pageSize := s.pagination.pageSize
  , search := s.searchTerm
  , createdBy := s.createdByFilter
  , isPublic := if s.isPublicFilter = "" then none else some (s.isPublicFilter == "true")
  , tag := s.tagFilter }

/-- The playlist list fetch effect: dispatches `fetchPlaylists` with the
current parameters when `shouldFetch` holds, nothing otherwise. -/
def playlistListEffectDispatch (now : Int) (s : PlaylistsState) : Option PlaylistFetchParams :=
  if playlistsShouldFetch now s.lastFetched (currentPlaylistParams s) s.lastFetchParams
  then some (currentPlaylistParams s)
  else none

/-- Specification-side reading of parameter difference for playlists. -/
def PlaylistParamsDiffer (c : PlaylistFetchParams) (l : Option PlaylistFetchParams) : Prop :=
  match l with
  | none => True
  | some lp =>
      c.page ≠ lp.page ∨ c.pageSize ≠ lp.pageSize ∨ c.search ≠ lp.search ∨
      c.createdBy ≠ lp.createdBy ∨ c.isPublic ≠ lp.isPublic ∨ c.tag ≠ lp.tag

/-- A contact-form submission; only `_id` is inspected by the reducers. -/
structure Contact where
  _id : String
  name : Option String
deriving Repr, DecidableEq

/-- Argument object of the `fetchContacts` thunk. -/
structure ContactFetchParams where
  page : Int
  pageSize : Int
  search : String
deriving Repr, DecidableEq

/-- Body of the backend response consumed by `fetchContacts` (`data` plus
flat `page`, `totalPages`, `total`, `limit` fields). -/
structure ContactsServerResponse where
  data : List Contact
  page : Int
  totalPages : Int
  total : Int
  limit : Int
deriving Repr, DecidableEq

/-- Payload returned by the `fetchContacts` thunk on success. -/
structure ContactsFetchPayload where
  contacts : List Contact
  pagination : ServerPagination
  searchTerm : String
deriving Repr, DecidableEq

/-- The `fetchContacts` thunk repackages the flat response fields under the
server-pagination key names (contactsSlice lines 38-47). -/
def fetchContactsPayload (arg : ContactFetchParams) (resp : ContactsServerResponse) :
    ContactsFetchPayload :=
  { contacts := resp.data
  , pagination :=
      { currentPage := resp.page
      , totalPages := resp.totalPages
      , totalItems := resp.total
      , itemsPerPage := resp.limit }
  , searchTerm := arg.search }

/-- State of the contacts slice. -/
structure ContactsState where
  items : List Contact
  loading : Bool
  error : Option String
  pagination : Pagination
  searchTerm : String
  lastFetched : Option Int
deriving Repr, DecidableEq

/-- Initial state of the contacts slice. -/
def contactsInitialState : ContactsState :=
  { items := []
  , loading := false
  , error := none
  , pagination := { page := 1, pageSize := 10, totalItems := 0, totalPages := 0 }
  , searchTerm := ""
  , lastFetched := none }

/-- Actions handled by the contacts slice. -/
inductive ContactsAction where
  | setSearchTerm (s : String)
  | setPagination (page pageSize : Int)
  | clearContacts
  | clearError
  | fetchContactsPending
  | fetchContactsFulfilled (payload : ContactsFetchPayload) (now : Int)
  | fetchContactsRejected (errorMessage : Option String)
  | deleteContactPending
  | deleteContactFulfilled (contactId : String)
  | deleteContactRejected (errorMessage : Option String)
deriving Repr, DecidableEq

/-- Reducer of the contacts slice.  The fulfilled fetch keeps `page` and
`pageSize` from the state and takes `totalItems`/`totalPages` from the
payload; the fulfilled delete steps the page back by one when the filtered
item list is empty and the current page is beyond the first. -/
def contactsReducer (state : ContactsState) (action : ContactsAction) : ContactsState :=
  match action with
  | .setSearchTerm s =>
      { state with searchTerm := s, pagination := { state.pagination with page := 1 } }
  | .setPagination page pageSize =>
      { state with pagination := { state.pagination with page := page, pageSize := pageSize } }
  | .clearContacts => { state with items := [], lastFetched := none }
  | .clearError => { state with error := none }
  | .fetchContactsPending => { state with loading := true, error := none }
  | .fetchContactsFulfilled payload now =>
      { state with
        loading := false
      , items := payload.contacts
      , pagination :=
          { page := state.pagination.page
          , pageSize := state.pagination.pageSize
          , totalItems := payload.pagination.totalItems
          , totalPages := payload.pagination.totalPages }
      , searchTerm := payload.searchTerm
      , lastFetched := some now }
  | .fetchContactsRejected msg =>
      { state with loading := false, error := some (jsOrElseStr msg "Failed to fetch contacts") }
  | .deleteContactPending => { state with error := none }
  | .deleteContactFulfilled contactId =>
      let filteredItems := state.items.filter (fun c => c._id != contactId)
      { state with
        items := filteredItems
      , pagination :=
          { state.pagination with
            totalItems := state.pagination.totalItems - 1
          , page :=
              if filteredItems.length = 0 ∧ 1 < state.pagination.page
              then state.pagination.page - 1
              else state.pagination.page } }
  | .deleteContactRejected msg =>
      { state with error := some (jsOrElseStr msg "Failed to delete contact") }

/-- A page item; only `_id` is inspected by the reducers. -/
structure Page where
  _id : String
  title : Option String
deriving Repr, DecidableEq

/-- Argument object of the `fetchPages` thunk. -/
structure PageFetchParams where
  page : Int
  pageSize : Int
  search : String
deriving Repr, DecidableEq

/-- Payload returned by the `fetchPages` thunk on success: the raw server
pagination object is passed through unchanged. -/
structure PagesFetchPayload where
  pages : List Page
  pagination : ServerPagination
  searchTerm : String
deriving Repr, DecidableEq

/-- State of the pages slice (pagesSlice). -/
structure PagesState where
  items : List Page
  loading : Bool
  error : Option String
  pagination : Pagination
  searchTerm : String
  lastFetched : Option Int
deriving Repr, DecidableEq

/-- Initial state of the pages slice. -/
def pagesInitialState : PagesState :=
  { items := []
  , loading := false
  , error := none
  , pagination := { page := 1, pageSize := 10, totalItems := 0, totalPages := 0 }
  , searchTerm := ""
  , lastFetched := none }

/-- Actions handled by the pages slice. -/
inductive PagesAction where
  | setSearchTerm (s : String)
  | setPagination (page pageSize : Int)
  | clearPages
  | fetchPagesPending
  | fetchPagesFulfilled (payload : PagesFetchPayload) (now : Int)
  | fetchPagesRejected (errorMessage : Option String)
  | deletePageFulfilled (pageId : String)
  | createPageFulfilled
  | updatePageFulfilled
deriving Repr, DecidableEq

/-- Reducer of the pages slice.  The fulfilled fetch merges the raw server
pagination object over the state record by JavaScript spread semantics: the
client keys `page`/`pageSize` have no counterpart among the server keys
(`currentPage`, `totalPages`, `totalItems`, `itemsPerPage`) and survive,
while `totalItems`/`totalPages` are overwritten.  Fulfilled create and
update force `lastFetched` to null instead of splicing the item in. -/
def pagesReducer (state : PagesState) (action : PagesAction) : PagesState :=
  match action with
  | .setSearchTerm s =>
      { state with searchTerm := s, pagination := { state.pagination with page := 1 } }
  | .setPagination page pageSize =>
      { state with pagination := { state.pagination with page := page, pageSize := pageSize } }
  | .clearPages => { state with items := [], lastFetched := none }
  | .fetchPagesPending => { state with loading := true, error := none }
  | .fetchPagesFulfilled payload now =>
      { state with
        loading := false
      , items := payload.pages
      , pagination :=
          { page := state.pagination.page
          , pageSize := state.pagination.pageSize
          , totalItems := payload.pagination.totalItems
          , totalPages := payload.pagination.totalPages }
      , searchTerm := payload.searchTerm
      , lastFetched := some now }
  | .fetchPagesRejected msg =>
      { state with loading := false, error := some (jsOrElseStr msg "Failed to fetch pages") }
  | .deletePageFulfilled pageId =>
      { state with
        items := state.items.filter (fun p => p._id != pageId)
      , pagination := { state.pagination with totalItems := state.pagination.totalItems - 1 } }
  | .createPageFulfilled => { state with lastFetched := none }
  | .updatePageFulfilled => { state with lastFetched := none }

/-- The confirmDelete handler of the PageList view: it dispatches the delete
for the chosen page and, when the pre-delete item list held exactly one item
and the current page is beyond the first, steps the pagination back one page
(PageList.tsx lines 94-115). -/
def pageListConfirmDelete (state : PagesState) (pageToDelete : Page) : PagesState :=
  let afterDelete := pagesReducer state (.deletePageFulfilled pageToDelete._id)
  if state.items.length = 1 ∧ 1 < state.pagination.page
  then pagesReducer afterDelete (.setPagination (state.pagination.page - 1) state.pagination.pageSize)
  else afterDelete

/-- An uploaded image as listed by the media host. -/
structure Image where
  public_id : String
  secure_url : String
  created_at : String
deriving Repr, DecidableEq

/-- An uploaded audio as listed by the media host. -/
structure Audio where
  public_id : String
  secure_url : String
  created_at : String
  name : Option String
deriving Repr, DecidableEq

/-- An audio folder with fully embedded items. -/
structure AudioFolder where
  name : String
  path : String
  audios : List Audio
  audioCount : Int
deriving Repr, DecidableEq

/-- Error object surfaced by a failed HTTP request: `error.response?.status`
and `error.response?.data?.message` (or `error.message`). -/
structure ApiError where
  status : Option Int
  message : Option String
deriving Repr, DecidableEq

/-- Raw body of the media-host image listing endpoint. -/
structure RawImagesResponse where
  images : List Image
  next_cursor : Option String
  has_more : Bool
deriving Repr, DecidableEq

/-- Raw body of the media-host audio listing endpoint. -/
structure RawAudiosResponse where
  audios : List Audio
  next_cursor : Option String
  has_more : Bool
deriving Repr, DecidableEq

/-- Value resolved by the `getUploadedImages` wrapper. -/
structure ImagesResult where
  images : List Image
  nextCursor : Option String
  hasMore : Bool
deriving Repr, DecidableEq

/-- Value resolved by the `getUploadedAudios` wrapper. -/
structure AudiosResult where
  audios : List Audio
  nextCursor : Option String
  hasMore : Bool
deriving Repr, DecidableEq

/-- The `getUploadedImages` wrapper (api.ts lines 270-299): on success it
renames the snake_case response fields; its catch block swallows any request
failure and resolves with an empty list, no cursor and `hasMore = false`. -/
def getUploadedImages (httpResult : Except ApiError RawImagesResponse) : ImagesResult :=
  match httpResult with
  | .ok r => { images := r.images, nextCursor := r.next_cursor, hasMore := r.has_more }
  | .error _ => { images := [], nextCursor := none, hasMore := false }

/-- The `getUploadedAudios` wrapper (api.ts lines 315-344), with the same
catch-and-resolve-empty behaviour as `getUploadedImages`. -/
def getUploadedAudios (httpResult : Except ApiError RawAudiosResponse) : AudiosResult :=
  match httpResult with
  | .ok r => { audios := r.audios, nextCursor := r.next_cursor, hasMore := r.has_more }
  | .error _ => { audios := [], nextCursor := none, hasMore := false }

/-- Outcome of dispatching a createAsyncThunk: either the fulfilled payload
or the rejection carrying the error message. -/
inductive ThunkOutcome (α : Type) where
  | fulfilled (payload : α)
  | rejected (errorMessage : Option String)
deriving Repr, DecidableEq

/-- The `fetchImages` thunk body awaits `getUploadedImages`, which never
throws (its catch block resolves with a default), so the thunk always
fulfills and the rejected reducer is unreachable. -/
def fetchImagesThunk (httpResult : Except ApiError RawImagesResponse) :
    ThunkOutcome ImagesResult :=
  .fulfilled (getUploadedImages httpResult)

/-- The `fetchAudios` thunk body awaits `getUploadedAudios`; as with images
it always fulfills. -/
def fetchAudiosThunk (httpResult : Except ApiError RawAudiosResponse) :
    ThunkOutcome AudiosResult :=
  .fulfilled (getUploadedAudios httpResult)

/-- State of the images slice. -/
structure ImagesState where
  items : List Image
  loading : Bool
  loadingMore : Bool
  error : Option String
  lastFetched : Option Int
  nextCursor : Option String
  hasMore : Bool
deriving Repr, DecidableEq

/-- Initial state of the images slice. -/
def imagesInitialState : ImagesState :=
  { items := []
  , loading := false
  , loadingMore := false
  , error := none
  , lastFetched := none
  , nextCursor := none
  , hasMore := false }

/-- Actions handled by the images slice. -/
inductive ImagesAction where
  | clearImages
  | fetchImagesPending
  | fetchImagesFulfilled (payload : ImagesResult) (now : Int)
  | fetchImagesRejected (errorMessage : Option String)
  | loadMoreImagesPending
  | loadMoreImagesFulfilled (payload : ImagesResult)
  | loadMoreImagesRejected (errorMessage : Option String)
  | deleteImagePending
  | deleteImageFulfilled (publicId : String)
  | deleteImageRejected (errorMessage : Option String)
deriving Repr, DecidableEq

/-- Reducer of the images slice.  A fulfilled top-level fetch replaces the
items and stamps `lastFetched`; a fulfilled load-more appends to the items
and toggles `loadingMore` instead of `loading`; both write
`payload.nextCursor || null` and `payload.hasMore`. -/
def imagesReducer (state : ImagesState) (action : ImagesAction) : ImagesState :=
  match action with
  | .clearImages => { state with items := [], lastFetched := none }
  | .fetchImagesPending => { state with loading := true, error := none }
  | .fetchImagesFulfilled payload now =>
      { state with
        loading := false
      , items := payload.images
      , nextCursor := jsOrNullStr payload.nextCursor
      , hasMore := payload.hasMore
      , lastFetched := some now }
  | .fetchImagesRejected msg =>
      { state with loading := false, error := some (jsOrElseStr msg "Failed to fetch images") }
  | .loadMoreImagesPending => { state with loadingMore := true, error := none }
  | .loadMoreImagesFulfilled payload =>
      { state with
        loadingMore := false
      , items := state.items ++ payload.images
      , nextCursor := jsOrNullStr payload.nextCursor
      , hasMore := payload.hasMore }
  | .loadMoreImagesRejected msg =>
      { state with loadingMore := false, error := some (jsOrElseStr msg "Failed to load more images") }
  | .deleteImagePending => { state with loading := true, error := none }
  | .deleteImageFulfilled publicId =>
      { state with loading := false, items := state.items.filter (fun i => i.public_id != publicId) }
  | .deleteImageRejected msg =>
      { state with loading := false, error := some (jsOrElseStr msg "Failed to delete image") }

/-- View mode of the audios screen. -/
inductive AudioViewMode where
  | flat
  | folders
deriving Repr, DecidableEq

/-- State of the audios slice. -/
structure AudiosState where
  items : List Audio
  folders : List AudioFolder
  loading : Bool
  loadingFolders : Bool
  loadingMore : Bool
  error : Option String
  lastFetched : Option Int
  lastFetchedFolders : Option Int
  nextCursor : Option String
  hasMore : Bool
  viewMode : AudioViewMode
deriving Repr, DecidableEq

/-- Initial state of the audios slice. -/
def audiosInitialState : AudiosState :=
  { items := []
  , folders := []
  , loading := false
  , loadingFolders := false
  , loadingMore := false
  , error := none
  , lastFetched := none
  , lastFetchedFolders := none
  , nextCursor := none
  , hasMore := false
  , viewMode := .folders }

/-- Actions handled by the audios slice. -/
inductive AudiosAction where
  | clearAudios
  | setViewMode (mode : AudioViewMode)
  | fetchAudiosPending
  | fetchAudiosFulfilled (payload : AudiosResult) (now : Int)
  | fetchAudiosRejected (errorMessage : Option String)
  | loadMoreAudiosPending
  | loadMoreAudiosFulfilled (payload : AudiosResult)
  | loadMoreAudiosRejected (errorMessage : Option String)
  | deleteAudioPending
  | deleteAudioFulfilled (publicId : String)
  | deleteAudioRejected (errorMessage : Option String)
  | removeAudioLocallyFulfilled (publicId : String)
  | fetchAudioFoldersPending
  | fetchAudioFoldersFulfilled (folders : List AudioFolder) (now : Int)
  | fetchAudioFoldersRejected (errorMessage : Option String)
deriving Repr, DecidableEq

/-- Reducer of the audios slice; the list-cache behaviour mirrors the images
slice, with the folder listing cached under `lastFetchedFolders`. -/
def audiosReducer (state : AudiosState) (action : AudiosAction) : AudiosState :=
  match action with
  | .clearAudios => { state with items := [], lastFetched := none }
  | .setViewMode mode => { state with viewMode := mode }
  | .fetchAudiosPending => { state with loading := true, error := none }
  | .fetchAudiosFulfilled payload now =>
      { state with
        loading := false
      , items := payload.audios
      , nextCursor := jsOrNullStr payload.nextCursor
      , hasMore := payload.hasMore
      , lastFetched := some now }
  | .fetchAudiosRejected msg =>
      { state with loading := false, error := some (jsOrElseStr msg "Failed to fetch audios") }
  | .loadMoreAudiosPending => { state with loadingMore := true, error := none }
  | .loadMoreAudiosFulfilled payload =>
      { state with
        loadingMore := false
      , items := state.items ++ payload.audios
      , nextCursor := jsOrNullStr payload.nextCursor
      , hasMore := payload.hasMore }
  | .loadMoreAudiosRejected msg =>
      { state with loadingMore := false, error := some (jsOrElseStr msg "Failed to load more audios") }
  | .deleteAudioPending => { state with loading := true, error := none }
  | .deleteAudioFulfilled publicId =>
      { state with loading := false, items := state.items.filter (fun a => a.public_id != publicId) }
  | .deleteAudioRejected msg =>
      { state with loading := false, error := some (jsOrElseStr msg "Failed to delete audio") }
  | .removeAudioLocallyFulfilled publicId =>
      { state with items := state.items.filter (fun a => a.public_id != publicId) }
  | .fetchAudioFoldersPending => { state with loadingFolders := true, error := none }
  | .fetchAudioFoldersFulfilled folders now =>
      { state with loadingFolders := false, folders := folders, lastFetchedFolders := some now }
  | .fetchAudioFoldersRejected msg =>
      { state with loadingFolders := false, error := some (jsOrElseStr msg "Failed to fetch audio folders") }

/-- Mirrors the JavaScript `s.includes(sub)` substring test. -/
def stringIncludes (s sub : String) : Bool :=
  decide (sub.toList <:+: s.toList)

/-- Mirrors `error.config?.url?.includes('/auth/verify')` coerced to a
boolean: a missing url yields undefined, which is falsy. -/
def urlIncludesVerify (url : Option String) : Bool :=
  match url with
  | none => false
  | some u => stringIncludes u "/auth/verify"

/-- Durable client storage holding the bearer token under the fixed key. -/
structure TokenStorage where
  token : Option String
deriving Repr, DecidableEq

/-- Result of running the api response interceptor on a failed response:
the storage afterwards and whether a full page reload was forced. -/
structure InterceptorResult where
  storage : TokenStorage
  reloaded : Bool
deriving Repr, DecidableEq

/-- The api response interceptor error branch (api.ts lines 52-72): on a 401
outside the verify endpoint it removes the stored token and forces a page
reload; every other failure leaves the storage untouched. -/
def apiResponseErrorInterceptor (storage : TokenStorage) (status : Option Int)
    (url : Option String) : InterceptorResult :=
  if status = some 401 ∧ urlIncludesVerify url = false
  then { storage := { token := none }, reloaded := true }
  else { storage := storage, reloaded := false }

/-- Authenticated user record held by the auth context. -/
structure AuthUser where
  id : String
  username : String
  email : String
  role : String
deriving Repr, DecidableEq

/-- Body of the auth verify endpoint response. -/
structure VerifyResponse where
  user : Option AuthUser
deriving Repr, DecidableEq

/-- Outcome of one invocation of `verifyToken` in the auth context. -/
inductive VerifyStepResult where
  | authenticated (user : AuthUser)
  | noUserInResponse
  | tokenRemoved
  | retryScheduled (delayMs : Int)
  | tokenKeptAfterRetries
deriving Repr, DecidableEq

/-- One step of `verifyToken` (AuthContext.tsx lines 58-88): a successful
response with a user authenticates; a 401 removes the stored token with no
retry; any other failure schedules a retry after 2 to-the-power retryCount
seconds while fewer than 2 retries have happened, and otherwise keeps the
token for a later attempt. -/
def verifyTokenStep (httpResult : Except ApiError VerifyResponse) (retryCount : Nat) :
    VerifyStepResult :=
  match httpResult with
  | .ok r =>
      match r.user with
      | some u => .authenticated u
      | none => .noUserInResponse
  | .error e =>
      if e.status = some 401 then .tokenRemoved
      else if retryCount < 2 then .retryScheduled (2 ^ retryCount * 1000)
      else .tokenKeptAfterRetries

/-- First action taken by the auth provider mount effect, as a function of
the stored token and the local expiry test (AuthContext.tsx lines 41-56). -/
inductive AuthMountStep where
  | finishUnauthenticated
  | discardExpiredToken
  | verifyStoredToken (token : String)
deriving Repr, DecidableEq

/-- The auth provider mount effect: no stored token finishes unauthenticated,
a locally expired token is discarded, and otherwise the token is verified
against the backend. -/
def authMountEffect (stored : Option String) (expired : String → Bool) : AuthMountStep :=
  match stored with
  | none => .finishUnauthenticated
  | some t => if expired t then .discardExpiredToken else .verifyStoredToken t

/-! Theorems. -/

lemma tracksParamsChanged_iff (c : TrackFetchParams) (l : Option TrackFetchParams) :
    tracksParamsChanged c l = true ↔ TrackParamsDiffer c l := by
  cases l with
  | none => simp [tracksParamsChanged, TrackParamsDiffer]
  | some lp =>
      simp only [tracksParamsChanged, TrackParamsDiffer, bne_iff_ne, Bool.or_eq_true, ne_eq]
      tauto

lemma playlistsParamsChanged_iff (c : PlaylistFetchParams) (l : Option PlaylistFetchParams) :
    playlistsParamsChanged c l = true ↔ PlaylistParamsDiffer c l := by
  cases l with
  | none => simp [playlistsParamsChanged, PlaylistParamsDiffer]
  | some lp =>
      simp only [playlistsParamsChanged, PlaylistParamsDiffer, bne_iff_ne, Bool.or_eq_true, ne_eq]
      tauto

/-- C1: the staleness decision of the track and playlist list views is true
exactly when the cache was never stamped, or the stamp is older than the
cache duration, or the current query parameters differ from the last-fetch
snapshot in some field; when it is false the fetch effect dispatches
nothing.  The hypothesis excludes the timestamp 0, where the JavaScript
falsiness test on the stamp also fires (a real stamp is a positive clock
reading). -/
theorem c1_shouldFetch_staleness_iff :
    (∀ (now : Int) (lf : Option Int) (c : TrackFetchParams) (l : Option TrackFetchParams),
      (∀ t, lf = some t → t ≠ 0) →
      (tracksShouldFetch now lf c l = true ↔
        lf = none ∨ (∃ t, lf = some t ∧ now - t > trackCacheDurationMs) ∨ TrackParamsDiffer c l))
    ∧ (∀ (now : Int) (s : TracksState),
        tracksShouldFetch now s.lastFetched (currentTrackParams s) s.lastFetchParams = false →
        trackListEffectDispatch now s = none)
    ∧ (∀ (now : Int) (lf : Option Int) (c : PlaylistFetchParams) (l : Option PlaylistFetchParams),
      (∀ t, lf = some t → t ≠ 0) →
      (playlistsShouldFetch now lf c l = true ↔
        lf = none ∨ (∃ t, lf = some t ∧ now - t > playlistCacheDurationMs) ∨ PlaylistParamsDiffer c l))
    ∧ (∀ (now : Int) (s : PlaylistsState),
        playlistsShouldFetch now s.lastFetched (currentPlaylistParams s) s.lastFetchParams = false →
        playlistListEffectDispatch now s = none) := by
  refine ⟨?_, ?_, ?_, ?_⟩
  · intro now lf c l h
    cases lf with
    | none => simp [tracksShouldFetch, TrackParamsDiffer]
    | some t =>
        have ht : (t == 0) = false := by
          simpa using h t rfl
        simp [tracksShouldFetch, ht, tracksParamsChanged_iff]
  · intro now s h
    simp [trackListEffectDispatch, h]
  · intro now lf c l h
    cases lf with
    | none => simp [playlistsShouldFetch, PlaylistParamsDiffer]
    | some t =>
        have ht : (t == 0) = false := by
          simpa using h t rfl
        simp [playlistsShouldFetch, ht, playlistsParamsChanged_iff]
  · intro now s h
    simp [playlistListEffectDispatch, h]

/-- Witness for C1: a three-minute-old stamp with unchanged parameters makes
the decision true, and a fresh stamp with unchanged parameters makes both
fetch effects dispatch nothing. -/
theorem c1_shouldFetch_staleness_iff_witness :
    (tracksShouldFetch 200000 (some 1)
        { page := 1, pageSize := 10, search := "", category := "", author := "" }
        (some { page := 1, pageSize := 10, search := "", category := "", author := "" }) = true)
    ∧ (trackListEffectDispatch 100
        { tracksInitialState with
          lastFetched := some 50
        , lastFetchParams :=
            some { page := 1, pageSize := 10, search := "", category := "", author := "" } } = none)
    ∧ (playlistsShouldFetch 200000 (some 1)
        { page := 1, pageSize := 10, search := "", createdBy := "", isPublic := none, tag := "" }
        (some { page := 1, pageSize := 10, search := "", createdBy := "", isPublic := none, tag := "" }) = true)
    ∧ (playlistListEffectDispatch 100
        { playlistsInitialState with
          lastFetched := some 50
        , lastFetchParams :=
            some { page := 1, pageSize := 10, search := "", createdBy := "", isPublic := none, tag := "" } } = none) := by
  refine ⟨?_, ?_, ?_, ?_⟩
  · exact (c1_shouldFetch_staleness_iff.1 200000 (some 1) _ _
      (by intro t h; cases h; decide)).mpr
      (Or.inr (Or.inl ⟨1, rfl, by decide⟩))
  · exact c1_shouldFetch_staleness_iff.2.1 100 _ (by decide)
  · exact (c1_shouldFetch_staleness_iff.2.2.1 200000 (some 1) _ _
      (by intro t h; cases h; decide)).mpr
      (Or.inr (Or.inl ⟨1, rfl, by decide⟩))
  · exact c1_shouldFetch_staleness_iff.2.2.2 100 _ (by decide)

/-- Counterexample to C2: in the tracks slice a fulfilled fetch overwrites
the whole pagination record from the thunk payload, so a server response
echoing currentPage 1 and itemsPerPage 10 replaces the client-owned page 5
and pageSize 20 instead of preserving them. -/
theorem c2_counterexample :
    (let s : TracksState :=
      { tracksInitialState with
        pagination := { page := 5, pageSize := 20, totalItems := 0, totalPages := 0 } };
    let arg : TrackFetchParams :=
      { page := 5, pageSize := 20, search := "", category := "", author := "" };
    let resp : TracksServerResponse :=
      { tracks := []
      , pagination := { currentPage := 1, totalPages := 5, totalItems := 42, itemsPerPage := 10 } };
    let s2 := tracksReducer s (.fetchTracksFulfilled (fetchTracksPayload arg resp) 1000 arg);
    s.pagination.page = 5 ∧ s.pagination.pageSize = 20 ∧
      s2.pagination.page = 1 ∧ s2.pagination.pageSize = 10) := by
  exact ⟨rfl, rfl, rfl, rfl⟩

/-- C2 amended: a fulfilled list fetch always replaces the items with the
server payload; the contacts and pages slices keep the client-owned page and
pageSize and take only totalItems and totalPages from the server response,
while the tracks and playlists slices overwrite the entire pagination record
from the thunk payload, whose page and pageSize come from the server keys
currentPage and itemsPerPage. -/
theorem c2_fetch_fulfilled_pagination :
    (∀ (s : ContactsState) (arg : ContactFetchParams) (resp : ContactsServerResponse) (now : Int),
      (contactsReducer s (.fetchContactsFulfilled (fetchContactsPayload arg resp) now)).items = resp.data
      ∧ (contactsReducer s (.fetchContactsFulfilled (fetchContactsPayload arg resp) now)).pagination =
          { page := s.pagination.page, pageSize := s.pagination.pageSize
          , totalItems := resp.total, totalPages := resp.totalPages })
    ∧ (∀ (s : PagesState) (payload : PagesFetchPayload) (now : Int),
      (pagesReducer s (.fetchPagesFulfilled payload now)).items = payload.pages
      ∧ (pagesReducer s (.fetchPagesFulfilled payload now)).pagination =
          { page := s.pagination.page, pageSize := s.pagination.pageSize
          , totalItems := payload.pagination.totalItems, totalPages := payload.pagination.totalPages })
    ∧ (∀ (s : TracksState) (arg : TrackFetchParams) (resp : TracksServerResponse) (now : Int),
      (tracksReducer s (.fetchTracksFulfilled (fetchTracksPayload arg resp) now arg)).items = resp.tracks
      ∧ (tracksReducer s (.fetchTracksFulfilled (fetchTracksPayload arg resp) now arg)).pagination =
          { page := resp.pagination.currentPage, pageSize := resp.pagination.itemsPerPage
          , totalItems := resp.pagination.totalItems, totalPages := resp.pagination.totalPages })
    ∧ (∀ (s : PlaylistsState) (arg : PlaylistFetchParams) (resp : PlaylistsServerResponse) (now : Int),
      (playlistsReducer s (.fetchPlaylistsFulfilled (fetchPlaylistsPayload arg resp) now arg)).items = resp.playlists
      ∧ (playlistsReducer s (.fetchPlaylistsFulfilled (fetchPlaylistsPayload arg resp) now arg)).pagination =
          { page := resp.pagination.currentPage, pageSize := resp.pagination.itemsPerPage
          , totalItems := resp.pagination.totalItems, totalPages := resp.pagination.totalPages }) := by
  exact ⟨fun s arg resp now => ⟨rfl, rfl⟩, fun s payload now => ⟨rfl, rfl⟩,
    fun s arg resp now => ⟨rfl, rfl⟩, fun s arg resp now => ⟨rfl, rfl⟩⟩

/-- Counterexample to C3: a fulfilled delete in the tracks slice, a mutation
that changes list membership, leaves the cache stamp in place instead of
clearing it to null. -/
theorem c3_counterexample :
    (let s : TracksState := { tracksInitialState with lastFetched := some 5 };
    (tracksReducer s (.deleteTrackFulfilled "t1")).lastFetched = some 5
    ∧ (tracksReducer s (.deleteTrackFulfilled "t1")).lastFetched ≠ none) := by
  exact ⟨rfl, by simp [tracksReducer]⟩

/-- Observed lastFetched policy of the tracks slice: stamped on a fulfilled
fetch, untouched by every other action (mutations included). -/
def tracksLastFetchedPolicy (s : TracksState) (a : TracksAction) : Option Int :=
  match a with
  | .fetchTracksFulfilled _ now _ => some now
  | _ => s.lastFetched

/-- Observed lastFetched policy of the playlists slice: stamped on a
fulfilled fetch, untouched by every other action. -/
def playlistsLastFetchedPolicy (s : PlaylistsState) (a : PlaylistsAction) : Option Int :=
  match a with
  | .fetchPlaylistsFulfilled _ now _ => some now
  | _ => s.lastFetched

/-- Observed lastFetched policy of the contacts slice: stamped on a
fulfilled fetch, cleared by the explicit clearContacts reducer, untouched by
every other action (the fulfilled delete included). -/
def contactsLastFetchedPolicy (s : ContactsState) (a : ContactsAction) : Option Int :=
  match a with
  | .fetchContactsFulfilled _ now => some now
  | .clearContacts => none
  | _ => s.lastFetched

/-- Observed lastFetched policy of the pages slice: stamped on a fulfilled
fetch, cleared by clearPages and by fulfilled create and update, untouched
by every other action (the fulfilled delete included). -/
def pagesLastFetchedPolicy (s : PagesState) (a : PagesAction) : Option Int :=
  match a with
  | .fetchPagesFulfilled _ now => some now
  | .clearPages => none
  | .createPageFulfilled => none
  | .updatePageFulfilled => none
  | _ => s.lastFetched

/-- Observed lastFetched policy of the images slice: stamped on a fulfilled
fetch, cleared by clearImages, untouched by every other action. -/
def imagesLastFetchedPolicy (s : ImagesState) (a : ImagesAction) : Option Int :=
  match a with
  | .fetchImagesFulfilled _ now => some now
  | .clearImages => none
  | _ => s.lastFetched

/-- Observed lastFetched policy of the audios slice: stamped on a fulfilled
list fetch, cleared by clearAudios, untouched by every other action (the
folder fetch stamps lastFetchedFolders, not lastFetched). -/
def audiosLastFetchedPolicy (s : AudiosState) (a : AudiosAction) : Option Int :=
  match a with
  | .fetchAudiosFulfilled _ now => some now
  | .clearAudios => none
  | _ => s.lastFetched

/-- C3 amended: in every slice, lastFetched is assigned a timestamp only by
the fulfilled-fetch reducer.  It is cleared to null by the explicit
cache-clear reducers (clearContacts, clearPages, clearImages, clearAudios)
and, among mutations, only by the fulfilled create and update of the pages
slice; every other transition, including every fulfilled delete and the
tracks and playlists create and update reducers, leaves lastFetched
unchanged. -/
theorem c3_lastFetched_transitions :
    (∀ (s : TracksState) (a : TracksAction),
      (tracksReducer s a).lastFetched = tracksLastFetchedPolicy s a)
    ∧ (∀ (s : PlaylistsState) (a : PlaylistsAction),
      (playlistsReducer s a).lastFetched = playlistsLastFetchedPolicy s a)
    ∧ (∀ (s : ContactsState) (a : ContactsAction),
      (contactsReducer s a).lastFetched = contactsLastFetchedPolicy s a)
    ∧ (∀ (s : PagesState) (a : PagesAction),
      (pagesReducer s a).lastFetched = pagesLastFetchedPolicy s a)
    ∧ (∀ (s : ImagesState) (a : ImagesAction),
      (imagesReducer s a).lastFetched = imagesLastFetchedPolicy s a)
    ∧ (∀ (s : AudiosState) (a : AudiosAction),
      (audiosReducer s a).lastFetched = audiosLastFetchedPolicy s a) := by
  refine ⟨?_, ?_, ?_, ?_, ?_, ?_⟩
  · intro s a
    cases a
    case updateTrackFulfilled t =>
      simp only [tracksReducer, tracksLastFetchedPolicy]
      cases s.items.findIdx? (fun q => q._id == t._id) <;> rfl
    all_goals rfl
  · intro s a
    cases a <;> rfl
  · intro s a
    cases a <;> rfl
  · intro s a
    cases a <;> rfl
  · intro s a
    cases a <;> rfl
  · intro s a
    cases a <;> rfl

/-- C4: in the slices with optimistic create and delete (tracks and
playlists), a fulfilled create of an item followed immediately by a
fulfilled delete of its id restores totalItems to the pre-create value and
leaves the item list without the created item, from every starting state. -/
theorem c4_create_delete_round_trip :
    (∀ (s : TracksState) (t : Track),
      (tracksReducer (tracksReducer s (.createTrackFulfilled t))
          (.deleteTrackFulfilled t._id)).pagination.totalItems = s.pagination.totalItems
      ∧ ∀ x ∈ (tracksReducer (tracksReducer s (.createTrackFulfilled t))
          (.deleteTrackFulfilled t._id)).items, x._id ≠ t._id)
    ∧ (∀ (s : PlaylistsState) (p : Playlist),
      (playlistsReducer (playlistsReducer s (.createPlaylistFulfilled p))
          (.deletePlaylistFulfilled p._id)).pagination.totalItems = s.pagination.totalItems
      ∧ ∀ x ∈ (playlistsReducer (playlistsReducer s (.createPlaylistFulfilled p))
          (.deletePlaylistFulfilled p._id)).items, x._id ≠ p._id) := by
  constructor
  · intro s t
    constructor
    · simp [tracksReducer]
    · intro x hx
      simp only [tracksReducer, List.mem_filter, bne_iff_ne, ne_eq] at hx
      exact hx.2
  · intro s p
    constructor
    · simp [playlistsReducer]
    · intro x hx
      simp only [playlistsReducer, List.mem_filter, bne_iff_ne, ne_eq] at hx
      exact hx.2

/-- Witness for C4: the round trip evaluated from the initial states with a
concrete item. -/
theorem c4_create_delete_round_trip_witness :
    ((tracksReducer (tracksReducer tracksInitialState
        (.createTrackFulfilled { _id := "b", title := none }))
        (.deleteTrackFulfilled "b")).pagination.totalItems
      = tracksInitialState.pagination.totalItems
    ∧ ∀ x ∈ (tracksReducer (tracksReducer tracksInitialState
        (.createTrackFulfilled { _id := "b", title := none }))
        (.deleteTrackFulfilled "b")).items, x._id ≠ "b")
    ∧ ((playlistsReducer (playlistsReducer playlistsInitialState
        (.createPlaylistFulfilled { _id := "q", title := none }))
        (.deletePlaylistFulfilled "q")).pagination.totalItems
      = playlistsInitialState.pagination.totalItems
    ∧ ∀ x ∈ (playlistsReducer (playlistsReducer playlistsInitialState
        (.createPlaylistFulfilled { _id := "q", title := none }))
        (.deletePlaylistFulfilled "q")).items, x._id ≠ "q") :=
  ⟨c4_create_delete_round_trip.1 tracksInitialState { _id := "b", title := none },
   c4_create_delete_round_trip.2 playlistsInitialState { _id := "q", title := none }⟩

/-- C5: page-underflow handling at the two places that implement it.  In the
contacts slice, a fulfilled delete that empties the cached item list while
the current page is beyond the first steps the page back by exactly one; on
the first page, or when the filtered list stays nonempty, the page is
unchanged.  In the PageList delete handler, deleting the single cached item
while beyond the first page steps the page back by one; on the first page or
with more than one cached item the page is unchanged. -/
theorem c5_page_underflow :
    (∀ (s : ContactsState) (c : Contact),
      s.items = [c] → 1 < s.pagination.page →
      (contactsReducer s (.deleteContactFulfilled c._id)).pagination.page =
        s.pagination.page - 1)
    ∧ (∀ (s : ContactsState) (contactId : String),
      s.pagination.page = 1 →
      (contactsReducer s (.deleteContactFulfilled contactId)).pagination.page =
        s.pagination.page)
    ∧ (∀ (s : ContactsState) (contactId : String),
      s.items.filter (fun c => c._id != contactId) ≠ [] →
      (contactsReducer s (.deleteContactFulfilled contactId)).pagination.page =
        s.pagination.page)
    ∧ (∀ (s : PagesState) (p : Page),
      s.items.length = 1 → 1 < s.pagination.page →
      (pageListConfirmDelete s p).pagination.page = s.pagination.page - 1)
    ∧ (∀ (s : PagesState) (p : Page),
      s.pagination.page = 1 →
      (pageListConfirmDelete s p).pagination.page = s.pagination.page)
    ∧ (∀ (s : PagesState) (p : Page),
      s.items.length ≠ 1 →
      (pageListConfirmDelete s p).pagination.page = s.pagination.page) := by
  refine ⟨?_, ?_, ?_, ?_, ?_, ?_⟩
  · intro s c hitems hpage
    simp [contactsReducer, hitems, hpage]
  · intro s contactId hpage
    simp [contactsReducer, hpage]
  · intro s contactId hfil
    simp only [ne_eq, ← List.length_eq_zero] at hfil
    simp [contactsReducer, hfil]
  · intro s p hlen hpage
    simp [pageListConfirmDelete, pagesReducer, hlen, hpage]
  · intro s p hpage
    simp [pageListConfirmDelete, pagesReducer, hpage]
  · intro s p hlen
    simp [pageListConfirmDelete, pagesReducer, hlen]

/-- Witness for C5: each branch of the page-underflow rule evaluated on a
concrete state. -/
theorem c5_page_underflow_witness :
    (let s3 : ContactsState :=
      { contactsInitialState with
        items := [{ _id := "c1", name := none }]
      , pagination := { page := 3, pageSize := 10, totalItems := 21, totalPages := 3 } };
    (contactsReducer s3 (.deleteContactFulfilled "c1")).pagination.page = 2)
    ∧ ((contactsReducer contactsInitialState (.deleteContactFulfilled "c1")).pagination.page = 1)
    ∧ (let s1 : ContactsState :=
      { contactsInitialState with
        items := [{ _id := "c1", name := none }, { _id := "c2", name := none }]
      , pagination := { page := 3, pageSize := 10, totalItems := 22, totalPages := 3 } };
    (contactsReducer s1 (.deleteContactFulfilled "c1")).pagination.page = 3)
    ∧ (let sp : PagesState :=
      { pagesInitialState with
        items := [{ _id := "p1", title := none }]
      , pagination := { page := 3, pageSize := 10, totalItems := 21, totalPages := 3 } };
    (pageListConfirmDelete sp { _id := "p1", title := none }).pagination.page = 2)
    ∧ ((pageListConfirmDelete pagesInitialState { _id := "p1", title := none }).pagination.page = 1)
    ∧ (let sq : PagesState :=
      { pagesInitialState with
        items := [{ _id := "p1", title := none }, { _id := "p2", title := none }]
      , pagination := { page := 3, pageSize := 10, totalItems := 22, totalPages := 3 } };
    (pageListConfirmDelete sq { _id := "p1", title := none }).pagination.page = 3) := by
  refine ⟨?_, ?_, ?_, ?_, ?_, ?_⟩
  · exact c5_page_underflow.1 _ { _id := "c1", name := none } rfl (by decide)
  · exact c5_page_underflow.2.1 _ "c1" rfl
  · exact c5_page_underflow.2.2.1 _ "c1" (by decide)
  · exact c5_page_underflow.2.2.2.1 _ { _id := "p1", title := none } rfl (by decide)
  · exact c5_page_underflow.2.2.2.2.1 _ { _id := "p1", title := none } rfl
  · exact c5_page_underflow.2.2.2.2.2 _ { _id := "p1", title := none } (by decide)

/-- C6: in the cursor-paginated slices (images, audios) a load-more appends
the response items to the existing sequence, overwrites nextCursor and
hasMore from the response, and toggles loadingMore while leaving loading
alone; the concrete scenario [X, Y] plus a response [Z] with has_more false
yields [X, Y, Z] with hasMore false. -/
theorem c6_load_more_append :
    (∀ (s : ImagesState),
      (imagesReducer s .loadMoreImagesPending).loadingMore = true
      ∧ (imagesReducer s .loadMoreImagesPending).loading = s.loading
      ∧ (imagesReducer s .loadMoreImagesPending).items = s.items)
    ∧ (∀ (s : ImagesState) (p : ImagesResult),
      (imagesReducer s (.loadMoreImagesFulfilled p)).items = s.items ++ p.images
      ∧ (imagesReducer s (.loadMoreImagesFulfilled p)).nextCursor = jsOrNullStr p.nextCursor
      ∧ (imagesReducer s (.loadMoreImagesFulfilled p)).hasMore = p.hasMore
      ∧ (imagesReducer s (.loadMoreImagesFulfilled p)).loadingMore = false
      ∧ (imagesReducer s (.loadMoreImagesFulfilled p)).loading = s.loading)
    ∧ (∀ (s : AudiosState),
      (audiosReducer s .loadMoreAudiosPending).loadingMore = true
      ∧ (audiosReducer s .loadMoreAudiosPending).loading = s.loading
      ∧ (audiosReducer s .loadMoreAudiosPending).items = s.items)
    ∧ (∀ (s : AudiosState) (p : AudiosResult),
      (audiosReducer s (.loadMoreAudiosFulfilled p)).items = s.items ++ p.audios
      ∧ (audiosReducer s (.loadMoreAudiosFulfilled p)).nextCursor = jsOrNullStr p.nextCursor
      ∧ (audiosReducer s (.loadMoreAudiosFulfilled p)).hasMore = p.hasMore
      ∧ (audiosReducer s (.loadMoreAudiosFulfilled p)).loadingMore = false
      ∧ (audiosReducer s (.loadMoreAudiosFulfilled p)).loading = s.loading)
    ∧ (let imgX : Image := { public_id := "X", secure_url := "uX", created_at := "" };
      let imgY : Image := { public_id := "Y", secure_url := "uY", created_at := "" };
      let imgZ : Image := { public_id := "Z", secure_url := "uZ", created_at := "" };
      let s : ImagesState :=
        { imagesInitialState with items := [imgX, imgY], hasMore := true, nextCursor := some "c1" };
      let s2 := imagesReducer s
        (.loadMoreImagesFulfilled { images := [imgZ], nextCursor := none, hasMore := false });
      s2.items = [imgX, imgY, imgZ] ∧ s2.hasMore = false ∧ s2.nextCursor = none) := by
  exact ⟨fun s => ⟨rfl, rfl, rfl⟩,
    fun s p => ⟨rfl, rfl, rfl, rfl, rfl⟩,
    fun s => ⟨rfl, rfl, rfl⟩,
    fun s p => ⟨rfl, rfl, rfl, rfl, rfl⟩,
    ⟨rfl, rfl, rfl⟩⟩

/-- C7: in every entity slice a rejected list fetch sets loading to false
and error to the failure message, falling back to a slice-specific generic
message when none is provided, and leaves the items and the pagination
record (respectively the cursor fields) unchanged. -/
theorem c7_fetch_rejected_preserves_cache :
    (∀ (s : TracksState) (msg : Option String),
      (tracksReducer s (.fetchTracksRejected msg)).loading = false
      ∧ (tracksReducer s (.fetchTracksRejected msg)).error =
          some (jsOrElseStr msg "Failed to fetch tracks")
      ∧ (tracksReducer s (.fetchTracksRejected msg)).items = s.items
      ∧ (tracksReducer s (.fetchTracksRejected msg)).pagination = s.pagination)
    ∧ (∀ (s : PlaylistsState) (msg : Option String),
      (playlistsReducer s (.fetchPlaylistsRejected msg)).loading = false
      ∧ (playlistsReducer s (.fetchPlaylistsRejected msg)).error =
          some (jsOrElseStr msg "Failed to fetch playlists")
      ∧ (playlistsReducer s (.fetchPlaylistsRejected msg)).items = s.items
      ∧ (playlistsReducer s (.fetchPlaylistsRejected msg)).pagination = s.pagination)
    ∧ (∀ (s : ContactsState) (msg : Option String),
      (contactsReducer s (.fetchContactsRejected msg)).loading = false
      ∧ (contactsReducer s (.fetchContactsRejected msg)).error =
          some (jsOrElseStr msg "Failed to fetch contacts")
      ∧ (contactsReducer s (.fetchContactsRejected msg)).items = s.items
      ∧ (contactsReducer s (.fetchContactsRejected msg)).pagination = s.pagination)
    ∧ (∀ (s : PagesState) (msg : Option String),
      (pagesReducer s (.fetchPagesRejected msg)).loading = false
      ∧ (pagesReducer s (.fetchPagesRejected msg)).error =
          some (jsOrElseStr msg "Failed to fetch pages")
      ∧ (pagesReducer s (.fetchPagesRejected msg)).items = s.items
      ∧ (pagesReducer s (.fetchPagesRejected msg)).pagination = s.pagination)
    ∧ (∀ (s : ImagesState) (msg : Option String),
      (imagesReducer s (.fetchImagesRejected msg)).loading = false
      ∧ (imagesReducer s (.fetchImagesRejected msg)).error =
          some (jsOrElseStr msg "Failed to fetch images")
      ∧ (imagesReducer s (.fetchImagesRejected msg)).items = s.items
      ∧ (imagesReducer s (.fetchImagesRejected msg)).nextCursor = s.nextCursor
      ∧ (imagesReducer s (.fetchImagesRejected msg)).hasMore = s.hasMore)
    ∧ (∀ (s : AudiosState) (msg : Option String),
      (audiosReducer s (.fetchAudiosRejected msg)).loading = false
      ∧ (audiosReducer s (.fetchAudiosRejected msg)).error =
          some (jsOrElseStr msg "Failed to fetch audios")
      ∧ (audiosReducer s (.fetchAudiosRejected msg)).items = s.items
      ∧ (audiosReducer s (.fetchAudiosRejected msg)).nextCursor = s.nextCursor
      ∧ (audiosReducer s (.fetchAudiosRejected msg)).hasMore = s.hasMore)
    ∧ (∀ (m fallback : String), m ≠ "" → jsOrElseStr (some m) fallback = m)
    ∧ (∀ (fallback : String), jsOrElseStr none fallback = fallback) := by
  refine ⟨fun s msg => ⟨rfl, rfl, rfl, rfl⟩,
    fun s msg => ⟨rfl, rfl, rfl, rfl⟩,
    fun s msg => ⟨rfl, rfl, rfl, rfl⟩,
    fun s msg => ⟨rfl, rfl, rfl, rfl⟩,
    fun s msg => ⟨rfl, rfl, rfl, rfl, rfl⟩,
    fun s msg => ⟨rfl, rfl, rfl, rfl, rfl⟩,
    ?_, fun fallback => rfl⟩
  intro m fallback hm
  simp [jsOrElseStr, hm]

/-- Witness for C7: a nonempty failure message is surfaced verbatim, and a
missing message falls back to the generic text. -/
theorem c7_fetch_rejected_preserves_cache_witness :
    (tracksReducer tracksInitialState (.fetchTracksRejected (some "boom"))).error = some "boom"
    ∧ (tracksReducer tracksInitialState (.fetchTracksRejected none)).error =
        some "Failed to fetch tracks" := by
  constructor
  · rw [(c7_fetch_rejected_preserves_cache.1 tracksInitialState (some "boom")).2.1,
      c7_fetch_rejected_preserves_cache.2.2.2.2.2.2.1 "boom" "Failed to fetch tracks" (by decide)]
  · rw [(c7_fetch_rejected_preserves_cache.1 tracksInitialState none).2.1,
      c7_fetch_rejected_preserves_cache.2.2.2.2.2.2.2 "Failed to fetch tracks"]

/-- C8: token-failure handling.  A 401 on a non-verify endpoint makes the
response interceptor remove the stored token and force a reload, after which
the mount effect with no stored token finishes unauthenticated; the
interceptor leaves the storage alone on verify-endpoint urls; a 401 during
token verification removes the token with no retry; a non-401 verification
failure schedules a retry after 2 to-the-power attempt seconds while fewer
than 2 retries have happened, and afterwards keeps the stored token. -/
theorem c8_token_failure_handling :
    (∀ (st : TokenStorage) (status : Option Int) (url : Option String),
      status = some 401 → urlIncludesVerify url = false →
      (apiResponseErrorInterceptor st status url).storage.token = none
      ∧ (apiResponseErrorInterceptor st status url).reloaded = true)
    ∧ (∀ (expired : String → Bool),
      authMountEffect none expired = .finishUnauthenticated)
    ∧ (∀ (st : TokenStorage) (status : Option Int) (url : Option String),
      urlIncludesVerify url = true →
      (apiResponseErrorInterceptor st status url).storage = st
      ∧ (apiResponseErrorInterceptor st status url).reloaded = false)
    ∧ (∀ (e : ApiError) (retryCount : Nat),
      e.status = some 401 →
      verifyTokenStep (.error e) retryCount = .tokenRemoved)
    ∧ (∀ (e : ApiError) (retryCount : Nat),
      e.status ≠ some 401 → retryCount < 2 →
      verifyTokenStep (.error e) retryCount = .retryScheduled (2 ^ retryCount * 1000))
    ∧ (∀ (e : ApiError) (retryCount : Nat),
      e.status ≠ some 401 → 2 ≤ retryCount →
      verifyTokenStep (.error e) retryCount = .tokenKeptAfterRetries) := by
  refine ⟨?_, ?_, ?_, ?_, ?_, ?_⟩
  · intro st status url hstatus hurl
    simp [apiResponseErrorInterceptor, hstatus, hurl]
  · intro expired
    rfl
  · intro st status url hurl
    simp [apiResponseErrorInterceptor, hurl]
  · intro e retryCount h401
    simp [verifyTokenStep, h401]
  · intro e retryCount h401 hlt
    simp [verifyTokenStep, h401, hlt]
  · intro e retryCount h401 hge
    simp [verifyTokenStep, h401, Nat.not_lt.mpr hge]

/-- Witness for C8: concrete 401 and network-failure scenarios. -/
theorem c8_token_failure_handling_witness :
    ((apiResponseErrorInterceptor { token := some "tok" } (some 401)
        (some "https://da-pages-be.vercel.app/api/tracks")).storage.token = none
    ∧ (apiResponseErrorInterceptor { token := some "tok" } (some 401)
        (some "https://da-pages-be.vercel.app/api/tracks")).reloaded = true)
    ∧ authMountEffect none (fun _ => false) = .finishUnauthenticated
    ∧ ((apiResponseErrorInterceptor { token := some "tok" } (some 401)
        (some "https://da-pages-be.vercel.app/api/auth/verify")).storage = { token := some "tok" }
    ∧ (apiResponseErrorInterceptor { token := some "tok" } (some 401)
        (some "https://da-pages-be.vercel.app/api/auth/verify")).reloaded = false)
    ∧ verifyTokenStep (.error { status := some 401, message := none }) 0 = .tokenRemoved
    ∧ verifyTokenStep (.error { status := some 500, message := none }) 1 =
        .retryScheduled (2 ^ 1 * 1000)
    ∧ verifyTokenStep (.error { status := none, message := none }) 2 = .tokenKeptAfterRetries := by
  refine ⟨?_, ?_, ?_, ?_, ?_, ?_⟩
  · exact c8_token_failure_handling.1 { token := some "tok" } (some 401)
      (some "https://da-pages-be.vercel.app/api/tracks") rfl (by decide)
  · exact c8_token_failure_handling.2.1 (fun _ => false)
  · exact c8_token_failure_handling.2.2.1 { token := some "tok" } (some 401)
      (some "https://da-pages-be.vercel.app/api/auth/verify") (by decide)
  · exact c8_token_failure_handling.2.2.2.1 { status := some 401, message := none } 0 rfl
  · exact c8_token_failure_handling.2.2.2.2.1 { status := some 500, message := none } 1
      (by decide) (by decide)
  · exact c8_token_failure_handling.2.2.2.2.2 { status := none, message := none } 2
      (by decide) (by decide)

/-- C9: a request failure while listing media never reaches the rejected
reducer, because the api wrappers swallow the error and resolve with an
empty list and hasMore false; the fulfilled reducer then replaces the cached
items with the empty list and stamps lastFetched, wiping the media cache on
a transient failure. -/
theorem c9_media_failure_wipes_cache :
    (∀ (e : ApiError),
      fetchImagesThunk (.error e) =
        .fulfilled { images := [], nextCursor := none, hasMore := false })
    ∧ (∀ (e : ApiError) (s : ImagesState) (now : Int),
      (imagesReducer s (.fetchImagesFulfilled (getUploadedImages (.error e)) now)).items = []
      ∧ (imagesReducer s (.fetchImagesFulfilled (getUploadedImages (.error e)) now)).lastFetched =
          some now
      ∧ (imagesReducer s (.fetchImagesFulfilled (getUploadedImages (.error e)) now)).hasMore = false)
    ∧ (∀ (e : ApiError),
      fetchAudiosThunk (.error e) =
        .fulfilled { audios := [], nextCursor := none, hasMore := false })
    ∧ (∀ (e : ApiError) (s : AudiosState) (now : Int),
      (audiosReducer s (.fetchAudiosFulfilled (getUploadedAudios (.error e)) now)).items = []
      ∧ (audiosReducer s (.fetchAudiosFulfilled (getUploadedAudios (.error e)) now)).lastFetched =
          some now
      ∧ (audiosReducer s (.fetchAudiosFulfilled (getUploadedAudios (.error e)) now)).hasMore =
          false) := by
  exact ⟨fun e => rfl,
    fun e s now => ⟨rfl, rfl, rfl⟩,
    fun e => rfl,
    fun e s now => ⟨rfl, rfl, rfl⟩⟩

/-- C10: every fulfilled delete of the page-paginated slices decrements
totalItems by exactly one even when no cached item matches the deleted id,
in which case the item list is unchanged; in particular a delete from the
initial state drives totalItems to minus one, so the counter is not kept
non-negative. -/
theorem c10_delete_decrements_unconditionally :
    (∀ (s : TracksState) (trackId : String),
      (∀ x ∈ s.items, x._id ≠ trackId) →
      (tracksReducer s (.deleteTrackFulfilled trackId)).items = s.items
      ∧ (tracksReducer s (.deleteTrackFulfilled trackId)).pagination.totalItems =
          s.pagination.totalItems - 1)
    ∧ (∀ (s : PlaylistsState) (playlistId : String),
      (∀ x ∈ s.items, x._id ≠ playlistId) →
      (playlistsReducer s (.deletePlaylistFulfilled playlistId)).items = s.items
      ∧ (playlistsReducer s (.deletePlaylistFulfilled playlistId)).pagination.totalItems =
          s.pagination.totalItems - 1)
    ∧ (∀ (s : ContactsState) (contactId : String),
      (∀ x ∈ s.items, x._id ≠ contactId) →
      (contactsReducer s (.deleteContactFulfilled contactId)).items = s.items
      ∧ (contactsReducer s (.deleteContactFulfilled contactId)).pagination.totalItems =
          s.pagination.totalItems - 1)
    ∧ (∀ (s : PagesState) (pageId : String),
      (∀ x ∈ s.items, x._id ≠ pageId) →
      (pagesReducer s (.deletePageFulfilled pageId)).items = s.items
      ∧ (pagesReducer s (.deletePageFulfilled pageId)).pagination.totalItems =
          s.pagination.totalItems - 1)
    ∧ ((tracksReducer tracksInitialState
        (.deleteTrackFulfilled "missing")).pagination.totalItems = -1) := by
  refine ⟨?_, ?_, ?_, ?_, rfl⟩
  · intro s trackId h
    refine ⟨?_, rfl⟩
    simp only [tracksReducer]
    rw [List.filter_eq_self]
    intro x hx
    simpa [bne_iff_ne] using h x hx
  · intro s playlistId h
    refine ⟨?_, rfl⟩
    simp only [playlistsReducer]
    rw [List.filter_eq_self]
    intro x hx
    simpa [bne_iff_ne] using h x hx
  · intro s contactId h
    have hfil : s.items.filter (fun c => c._id != contactId) = s.items := by
      rw [List.filter_eq_self]
      intro x hx
      simpa [bne_iff_ne] using h x hx
    exact ⟨by simp only [contactsReducer, hfil], by simp only [contactsReducer]⟩
  · intro s pageId h
    refine ⟨?_, rfl⟩
    simp only [pagesReducer]
    rw [List.filter_eq_self]
    intro x hx
    simpa [bne_iff_ne] using h x hx

/-- Witness for C10: deleting an id absent from a singleton cache leaves the
items unchanged and still lowers the counter. -/
theorem c10_delete_decrements_unconditionally_witness :
    (tracksReducer
        { tracksInitialState with
          items := [{ _id := "a", title := none }]
        , pagination := { page := 1, pageSize := 10, totalItems := 1, totalPages := 1 } }
        (.deleteTrackFulfilled "b")).items = [{ _id := "a", title := none }]
    ∧ (tracksReducer
        { tracksInitialState with
          items := [{ _id := "a", title := none }]
        , pagination := { page := 1, pageSize := 10, totalItems := 1, totalPages := 1 } }
        (.deleteTrackFulfilled "b")).pagination.totalItems = 0 :=
  c10_delete_decrements_unconditionally.1
    { tracksInitialState with
      items := [{ _id := "a", title := none }]
    , pagination := { page := 1, pageSize := 10, totalItems := 1, totalPages := 1 } }
    "b" (by decide)
